import Mathlib

/-!
Verification development for the mdm-prj-plnr project planner.

The Python sources are shallowly embedded:
* calendar dates are encoded as proleptic-Gregorian day numbers (`mkDate`),
  so `datetime.timedelta(days = n)` is addition by `n`;
* the SQLAlchemy entity classes of `src/database.py` become structures and the
  SQLite-backed tables become lists held in a `DB` record, with the
  auto-increment primary-key counters made explicit;
* each `ProjectManagerDB` method becomes a pure state-passing function;
* the `configparser`-backed `ConfigManager` of `src/config.py` becomes an
  association list together with a model of the BasicInterpolation engine
  that `configparser.ConfigParser()` installs by default;
* `add_initial_project_plan` of `src/utils/main_helper.py` becomes a function
  from the database state, the selected project and the three configured
  team-member names (the three `get_property` results) to the new state.
-/

namespace MdmPrjPlnr

/-! ### Calendar dates

A date is its day number in the proleptic Gregorian calendar
(`mkDate 1 1 1 = 1`, i.e. rata die).  `datetime.date` arithmetic with
`timedelta(days = n)` / `timedelta(weeks = w)` is `+ n` / `+ w * 7`. -/

/-- Gregorian leap-year rule, as in `datetime`. -/
def isLeap (y : Nat) : Bool := (y % 4 == 0 && y % 100 != 0) || (y % 400 == 0)

/-- Days in the months strictly before month `m` (1-based) of a year. -/
def daysBeforeMonth (m : Nat) (leap : Bool) : Nat :=
  let feb := if leap then 29 else 28
  match m with
  | 1 => 0
  | 2 => 31
  | 3 => 31 + feb
  | 4 => 62 + feb
  | 5 => 92 + feb
  | 6 => 123 + feb
  | 7 => 153 + feb
  | 8 => 184 + feb
  | 9 => 215 + feb
  | 10 => 245 + feb
  | 11 => 276 + feb
  | _ => 306 + feb

/-- The rata-die day number of the Gregorian date `y-m-d`. -/
def mkDate (y m d : Nat) : Nat :=
  365 * (y - 1) + ((y - 1) / 4 - (y - 1) / 100) + (y - 1) / 400 +
    daysBeforeMonth m (isLeap y) + d

/-! ### Entities (`src/database.py`)

Each structure mirrors one declarative model class.  Column types map as
`Mapped[int] ↦ Nat`, `Mapped[str] ↦ String`, `Mapped[Optional[...]] ↦ Option`,
`Mapped[date] ↦ Nat` (day number).  The ORM relationship attributes are not
stored on the rows; they are recovered by joins on the foreign-key columns. -/

/-- `class Project`: id, unique name, start date, optional target end date,
status (default "Planned"). -/
structure Project where
  id : Nat
  name : String
  start_date : Nat
  end_date_target : Option Nat
  status : String
deriving DecidableEq, Repr

/-- `class Phase`: id, project foreign key, name, optional start/end dates,
optional description. -/
structure Phase where
  id : Nat
  project_id : Nat
  name : String
  start_date : Option Nat
  end_date : Option Nat
  phDescription : Option String
deriving DecidableEq, Repr

/-- `class Epic`: id, phase foreign key, name, optional description,
status (default "Planned"). -/
structure Epic where
  id : Nat
  phase_id : Nat
  name : String
  epDescription : Option String
  status : String
deriving DecidableEq, Repr

/-- `class Task`: id, epic foreign key, name, optional description, optional
assignee, priority (default "Medium"), status (default "To Do"), optional
jira link and start/due/completed dates. -/
structure Task where
  id : Nat
  epic_id : Nat
  name : String
  tkDescription : Option String
  assigned_to : Option String
  priority : String
  status : String
  jira_link : Option String
  start_date : Option Nat
  due_date : Option Nat
  completed_date : Option Nat
deriving DecidableEq, Repr

/-- `class SubTask`: id, task foreign key, name, optional description,
optional assignee, status (default "To Do"), optional completed date. -/
structure SubTask where
  id : Nat
  task_id : Nat
  name : String
  stDescription : Option String
  assigned_to : Option String
  status : String
  completed_date : Option Nat
deriving DecidableEq, Repr

/-- `class DailyLog`: id, project foreign key, log date, the six per-site
narrative fields plus the shared decisions field, and the creation
timestamp set at insert time (`datetime.now`, encoded as an abstract
tick count). -/
structure DailyLog where
  id : Nat
  project_id : Nat
  log_date : Nat
  activities_us : Option String
  activities_india : Option String
  blockers_us : Option String
  blockers_india : Option String
  decisions_made : Option String
  next_steps_us : Option String
  next_steps_india : Option String
  timestamp : Nat
deriving DecidableEq, Repr

/-- The SQLite database file: one list per table (rows in insertion order)
for each of the six tables of the schema, plus the auto-increment id
counter of each table.  SQLite assigns row ids `1, 2, 3, ...` per table. -/
structure DB where
  projects : List Project
  phases : List Phase
  epics : List Epic
  tasks : List Task
  subtasks : List SubTask
  daily_logs : List DailyLog
  nextProjectId : Nat
  nextPhaseId : Nat
  nextEpicId : Nat
  nextTaskId : Nat
  nextSubTaskId : Nat
  nextDailyLogId : Nat
deriving DecidableEq, Repr

/-- A freshly created database (`Base.metadata.create_all`): empty tables. -/
def emptyDB : DB := ⟨[], [], [], [], [], [], 1, 1, 1, 1, 1, 1⟩

instance {ε α : Type} [DecidableEq ε] [DecidableEq α] :
    DecidableEq (Except ε α)
  | Except.error e1, Except.error e2 =>
      if h : e1 = e2 then isTrue (by rw [h])
      else isFalse (fun hc => h (by injection hc))
  | Except.error _, Except.ok _ => isFalse (fun hc => Except.noConfusion hc)
  | Except.ok _, Except.error _ => isFalse (fun hc => Except.noConfusion hc)
  | Except.ok a1, Except.ok a2 =>
      if h : a1 = a2 then isTrue (by rw [h])
      else isFalse (fun hc => h (by injection hc))

/-- Typed persistence-layer error.  `duplicateName` is the integrity error
raised by the `unique=True` constraint on `Project.name` when
`create_project` commits a second project with an existing name. -/
inductive DBError where
  | duplicateName
deriving DecidableEq, Repr

/-! ### `ProjectManagerDB` operations

Each method opens its own session, performs a single insert or update,
commits and closes; here each becomes a function on `DB`. -/

/-- `create_project(name, start_date, end_date_target)`: inserts a new
project row.  The `unique=True` constraint on `name` makes the commit fail
(and leave the database unchanged) when a project with the same name already
exists; the constructed row uses status default "Planned". -/
def create_project (db : DB) (name : String) (start_date : Nat)
    (end_date_target : Nat) : Except DBError Project × DB :=
  if db.projects.any (fun p => p.name == name) then
    (Except.error DBError.duplicateName, db)
  else
    let p : Project :=
      ⟨db.nextProjectId, name, start_date, some end_date_target, "Planned"⟩
    (Except.ok p,
      { db with projects := db.projects ++ [p],
                nextProjectId := db.nextProjectId + 1 })

/-- `get_project_by_name(name)`: first project row with the given name. -/
def get_project_by_name (db : DB) (name : String) : Option Project :=
  db.projects.find? (fun p => p.name == name)

/-- `add_phase(project_id, name, description, start_date=None, end_date=None)`:
inserts a phase row.  The Python body performs no check that `project_id`
references an existing project, and the backing SQLite store does not enforce
foreign keys by default, so the insert succeeds unconditionally. -/
def add_phase (db : DB) (project_id : Nat) (name : String) (descr : String)
    (start_date : Option Nat) (end_date : Option Nat) : Phase × DB :=
  let ph : Phase :=
    ⟨db.nextPhaseId, project_id, name, start_date, end_date, some descr⟩
  (ph, { db with phases := db.phases ++ [ph],
                 nextPhaseId := db.nextPhaseId + 1 })

/-- `add_epic(phase_id, name, description, status="Planned")`: inserts an epic
row; no parent-existence check (see `add_phase`). -/
def add_epic (db : DB) (phase_id : Nat) (name : String) (descr : String)
    (status : String) : Epic × DB :=
  let e : Epic := ⟨db.nextEpicId, phase_id, name, some descr, status⟩
  (e, { db with epics := db.epics ++ [e], nextEpicId := db.nextEpicId + 1 })

/-- `add_task(epic_id, name, description, assigned_to, priority="Medium",
status="To Do", jira_link=None, start_date=None, due_date=None)`: inserts a
task row; no parent-existence check (see `add_phase`).  `completed_date`
starts out NULL. -/
def add_task (db : DB) (epic_id : Nat) (name : String) (descr : String)
    (assigned_to : String) (priority : String) (status : String)
    (jira_link : Option String) (start_date : Option Nat)
    (due_date : Option Nat) : Task × DB :=
  let t : Task :=
    ⟨db.nextTaskId, epic_id, name, some descr, some assigned_to, priority,
      status, jira_link, start_date, due_date, none⟩
  (t, { db with tasks := db.tasks ++ [t], nextTaskId := db.nextTaskId + 1 })

/-- The mutation `update_task_status` performs on the fetched task object:
`task.status = new_status`, and `task.completed_date = date.today()` exactly
when the new status is "Done".  `today` stands for `date.today()`. -/
def applyStatus (new_status : String) (today : Nat) (t : Task) : Task :=
  { t with status := new_status,
           completed_date :=
             if new_status == "Done" then some today else t.completed_date }

/-- `update_task_status(task_id, new_status)`: looks the task up by primary
key; if absent, returns None leaving the store untouched; otherwise applies
`applyStatus` to that row and returns the updated row. -/
def update_task_status (db : DB) (task_id : Nat) (new_status : String)
    (today : Nat) : Option Task × DB :=
  match db.tasks.find? (fun t => t.id == task_id) with
  | none => (none, db)
  | some t =>
      (some (applyStatus new_status today t),
       { db with tasks := db.tasks.map (fun u =>
           if u.id == task_id then applyStatus new_status today u else u) })

/-! ### `get_tasks_for_project`

The query joins `Task → Epic → Phase` on the foreign keys, filters on
`Phase.project_id == project_id` and orders by
`Task.due_date.asc(), Task.priority.desc()`.  Under the default SQLite
collation, ascending `ORDER BY` places NULL due dates first and compares the
free-text priority column lexicographically (byte order, which on strings
agrees with code-point order). -/

/-- The join-and-filter predicate of `get_tasks_for_project`: some epic row
matches the task foreign key and some phase row matches that epic foreign
key with the requested project id. -/
def taskOfProjectB (db : DB) (project_id : Nat) (t : Task) : Bool :=
  db.epics.any (fun e => e.id == t.epic_id &&
    db.phases.any (fun ph => ph.id == e.phase_id && ph.project_id == project_id))

/-- Strict comparison on optional due dates under ascending SQLite order:
NULL sorts before every date, dates compare numerically. -/
def dueLt (x y : Option Nat) : Prop :=
  match x, y with
  | none, some _ => True
  | some a, some b => a < b
  | _, _ => False

instance (x y : Option Nat) : Decidable (dueLt x y) :=
  match x, y with
  | none, some _ => isTrue True.intro
  | some a, some b => inferInstanceAs (Decidable (a < b))
  | none, none => isFalse (fun h => h)
  | some _, none => isFalse (fun h => h)

/-- The row order produced by
`order_by(Task.due_date.asc(), Task.priority.desc())`: earlier due date
first (NULL first), and on equal due dates the lexicographically larger
priority string first. -/
def taskLe (a b : Task) : Prop :=
  dueLt a.due_date b.due_date ∨
    (a.due_date = b.due_date ∧ b.priority ≤ a.priority)

instance : DecidableRel taskLe := fun a b =>
  inferInstanceAs (Decidable (dueLt a.due_date b.due_date ∨
    (a.due_date = b.due_date ∧ b.priority ≤ a.priority)))

instance : IsTrans Task taskLe :=
  ⟨by
    have hlt : ∀ x y z : Option Nat, dueLt x y → dueLt y z → dueLt x z := by
      intro x y z h1 h2
      rcases x with - | a <;> rcases y with - | b <;> rcases z with - | c <;>
        simp [dueLt] at h1 h2 ⊢
      omega
    rintro a b c (hab | ⟨hab1, hab2⟩) (hbc | ⟨hbc1, hbc2⟩)
    · exact Or.inl (hlt _ _ _ hab hbc)
    · exact Or.inl (hbc1 ▸ hab)
    · exact Or.inl (hab1 ▸ hbc)
    · exact Or.inr ⟨hab1.trans hbc1, le_trans hbc2 hab2⟩⟩

instance : IsTotal Task taskLe :=
  ⟨by
    have htri : ∀ x y : Option Nat, dueLt x y ∨ x = y ∨ dueLt y x := by
      intro x y
      rcases x with - | a <;> rcases y with - | b <;> simp [dueLt]
      omega
    intro a b
    rcases htri a.due_date b.due_date with h | h | h
    · exact Or.inl (Or.inl h)
    · rcases le_total b.priority a.priority with hp | hp
      · exact Or.inl (Or.inr ⟨h, hp⟩)
      · exact Or.inr (Or.inr ⟨h.symm, hp⟩)
    · exact Or.inr (Or.inl h)⟩

/-- `get_tasks_for_project(project_id)`: all task rows whose epic and phase
chain reaches the project, ordered as in the SQL `ORDER BY`. -/
def get_tasks_for_project (db : DB) (project_id : Nat) : List Task :=
  List.insertionSort taskLe (db.tasks.filter (taskOfProjectB db project_id))

/-! ### Derived views used to state template-generator properties -/

/-- The phase rows of one project, in insertion order. -/
def phasesOfProject (db : DB) (pid : Nat) : List Phase :=
  db.phases.filter (fun ph => ph.project_id == pid)

/-- The epic rows whose phase belongs to one project, in insertion order. -/
def epicsOfProject (db : DB) (pid : Nat) : List Epic :=
  db.epics.filter (fun e =>
    db.phases.any (fun ph => ph.id == e.phase_id && ph.project_id == pid))

/-- The task rows reaching one project through the epic/phase chain, in
insertion order. -/
def tasksOfProject (db : DB) (pid : Nat) : List Task :=
  db.tasks.filter (taskOfProjectB db pid)

/-- The task rows under one phase (through the epic foreign key), in
insertion order. -/
def tasksUnderPhase (db : DB) (phid : Nat) : List Task :=
  db.tasks.filter (fun t =>
    db.epics.any (fun e => e.id == t.epic_id && e.phase_id == phid))

/-! ### The Plan Template Generator (`src/utils/main_helper.py`)

`add_initial_project_plan` reads the three team-member names from the
configuration (each `get_property` returns a string or None), substitutes
the literal fallbacks "SSA1" / "SA2" / "Offshore PM" for missing ones, and
issues its fixed sequence of `add_phase` / `add_epic` / `add_task` calls on
the selected project.  The GUI guard clauses and confirmation dialog are
presentation-layer concerns; the embedded function is the seeding sequence
itself, parameterized by the database state, the selected project row and
the three configuration lookups. -/

def add_initial_project_plan (db : DB) (project : Project)
    (ssa1_name sa2_name offshore_pm_name : Option String) : DB :=
  let ssa1_name_str := match ssa1_name with | some s => s | none => "SSA1"
  let sa2_name_str := match sa2_name with | some s => s | none => "SA2"
  let offshore_pm_name_str :=
    match offshore_pm_name with | some s => s | none => "Offshore PM"
  -- Phase 1: Inception & Detailed Planning (Weeks 1-4)
  let (phase1, db) := add_phase db project.id
    "Phase 1: Inception & Detailed Planning (Weeks 1-4)"
    "Establish foundational understanding, detailed requirements, and initial design for key modules."
    (some project.start_date) (some (project.start_date + 4 * 7))
  let (epic1_1, db) := add_epic db phase1.id
    "Requirements Gathering & Reverse Engineering"
    "Gather business & technical requirements, reverse engineer vendor product."
    "Planned"
  let (_, db) := add_task db epic1_1.id
    "Client Kick-off & Expectations Alignment"
    "Formal kick-off with client to align on scope and communication."
    ssa1_name_str "High" "To Do" none none (some (project.start_date + 3))
  let (_, db) := add_task db epic1_1.id
    "Vendor Product Architecture Deep Dive"
    "Dissect existing on-prem MDM product for architecture, APIs, and customization points."
    (ssa1_name_str ++ ", " ++ sa2_name_str) "High" "To Do" none none
    (some (project.start_date + 7))
  let (_, db) := add_task db epic1_1.id
    "Detailed MDM Customization Requirements"
    "Workshops with client BAs for data quality, validations, UI, RBAC."
    ssa1_name_str "High" "To Do" none none (some (project.start_date + 14))
  let (_, db) := add_task db epic1_1.id
    "Ingress Source System Data Mapping (Initial 5)"
    "Detailed data mapping for the first 5 critical ingress sources."
    sa2_name_str "High" "To Do" none none (some (project.start_date + 14))
  let (epic1_2, db) := add_epic db phase1.id
    "Technical Design & Initial POCs"
    "Develop overall architectural design and conduct critical proof of concepts."
    "Planned"
  let (_, db) := add_task db epic1_2.id
    "Overall ETL/MDM Solution Architecture"
    "Design the end-to-end architecture for Ingress, MDM, and Egress."
    ssa1_name_str "High" "To Do" none none (some (project.start_date + 21))
  let (_, db) := add_task db epic1_2.id
    "MDM Customization Framework POC"
    "Prove out a customization approach for the vendor MDM product."
    sa2_name_str "High" "To Do" none none (some (project.start_date + 21))
  let (_, db) := add_task db epic1_2.id
    "Ingress Data Pipeline POC (Connector)"
    "Validate connectivity and initial data extraction from a complex source."
    sa2_name_str "Medium" "To Do" none none (some (project.start_date + 28))
  let (_, db) := add_task db epic1_2.id
    "Offshore Team Onboarding & Environment Setup"
    "Ensure offshore team has access, tools, and dev environments ready."
    offshore_pm_name_str "High" "To Do" none none
    (some (project.start_date + 28))
  -- Phase 2: Iterative Development & Delivery (Months 2-6)
  let (phase2, db) := add_phase db project.id
    "Phase 2: Iterative Development & Delivery (Months 2-6)"
    "Develop, unit test, and deliver functional modules in iterations."
    (some (project.start_date + 4 * 7))
    (some (project.start_date + (4 + 5 * 4) * 7))
  let (epic2_1, db) := add_epic db phase2.id
    "Ingress Module Development"
    "Develop data pipelines for 20 source systems into MDM."
    "Planned"
  let (_, db) := add_task db epic2_1.id
    "Ingress Source 1-5 Development & Unit Test"
    "Develop and unit test pipelines for first 5 critical sources."
    (offshore_pm_name_str ++ " (Offshore Team)") "High" "To Do" none none none
  let (_, db) := add_task db epic2_1.id
    "Ingress Source 6-10 Development & Unit Test"
    "Develop and unit test pipelines for next 5 critical sources."
    (offshore_pm_name_str ++ " (Offshore Team)") "Medium" "To Do" none none none
  let (_, db) := add_task db epic2_1.id
    "Ingress Source 11-20 Development & Unit Test"
    "Develop and unit test pipelines for remaining sources."
    (offshore_pm_name_str ++ " (Offshore Team)") "Low" "To Do" none none none
  let (_, db) := add_task db epic2_1.id
    "Ingress Data Quality & Error Handling"
    "Implement robust data quality checks and error logging for all pipelines."
    sa2_name_str "High" "To Do" none none none
  let (epic2_2, db) := add_epic db phase2.id
    "Egress Module Development"
    "Pull data from CRM, identify deltas, and write to CSV files."
    "Planned"
  let (_, db) := add_task db epic2_2.id
    "Egress CRM Data Extraction Design"
    "Design efficient extraction of CRM data."
    sa2_name_str "High" "To Do" none none none
  let (_, db) := add_task db epic2_2.id
    "Egress Delta Logic Implementation"
    "Implement logic to identify and process data deltas."
    (offshore_pm_name_str ++ " (Offshore Team)") "High" "To Do" none none none
  let (_, db) := add_task db epic2_2.id
    "Egress CSV File Generation"
    "Develop module to generate formatted CSV files."
    (offshore_pm_name_str ++ " (Offshore Team)") "Medium" "To Do" none none none
  let (epic2_3, db) := add_epic db phase2.id
    "MDM Customization & Configuration"
    "Implement Data Quality, Validations, UI, RBAC based on requirements."
    "Planned"
  let (_, db) := add_task db epic2_3.id
    "MDM Data Quality Rules Implementation"
    "Implement core data quality rules within MDM."
    (offshore_pm_name_str ++ " (Offshore Team)") "High" "To Do" none none none
  let (_, db) := add_task db epic2_3.id
    "MDM Data Validation Logic"
    "Implement custom data validation rules."
    (offshore_pm_name_str ++ " (Offshore Team)") "High" "To Do" none none none
  let (_, db) := add_task db epic2_3.id
    "MDM UI Customization (Key Screens)"
    "Customize essential UI screens for data stewardship."
    (offshore_pm_name_str ++ " (Offshore Team)") "Medium" "To Do" none none none
  let (_, db) := add_task db epic2_3.id
    "MDM RBAC Configuration & Testing"
    "Configure Role-Based Access Control and test permissions."
    sa2_name_str "High" "To Do" none none none
  let (_, db) := add_task db epic2_3.id
    "MDM Workflow Customization (if applicable)"
    "Customize data approval/stewardship workflows."
    (offshore_pm_name_str ++ " (Offshore Team)") "Medium" "To Do" none none none
  -- Phase 3: UAT & Deployment Readiness (Month 7)
  let (phase3, db) := add_phase db project.id
    "Phase 3: UAT & Deployment Readiness (Month 7)"
    "Achieve client sign-off on functionality, prepare for production deployment."
    (some (project.start_date + (4 + 5 * 4) * 7)) project.end_date_target
  let (epic3_1, db) := add_epic db phase3.id
    "User Acceptance Testing (UAT)"
    "Client-led testing and defect resolution."
    "Planned"
  let (_, db) := add_task db epic3_1.id
    "UAT Test Case Review & Preparation"
    "Work with client BAs to finalize UAT test cases."
    ssa1_name_str "High" "To Do" none none none
  let (_, db) := add_task db epic3_1.id
    "UAT Environment Setup & Data Load"
    "Prepare and load data into UAT environment."
    sa2_name_str "High" "To Do" none none none
  let (_, db) := add_task db epic3_1.id
    "UAT Defect Triage & Resolution Cycles"
    "Manage, prioritize, and resolve defects found during UAT."
    (offshore_pm_name_str ++ " (Offshore Team), " ++ ssa1_name_str)
    "High" "To Do" none none none
  let (epic3_2, db) := add_epic db phase3.id
    "Deployment Readiness & Go-Live"
    "Final preparations for production deployment."
    "Planned"
  let (_, db) := add_task db epic3_2.id
    "Production Deployment Plan"
    "Develop detailed plan including rollback strategy."
    ssa1_name_str "High" "To Do" none none none
  let (_, db) := add_task db epic3_2.id
    "Pre-Go-Live System Health Checks"
    "Perform final checks on performance, data integrity."
    sa2_name_str "High" "To Do" none none none
  let (_, db) := add_task db epic3_2.id
    "Post-Go-Live Support Plan"
    "Define support structure for immediate post-deployment."
    ssa1_name_str "High" "To Do" none none none
  db

/-! ### The skeleton rows the generator inserts

Closed forms of the three phase rows, seven epic rows and twenty-six task
rows that one run of `add_initial_project_plan` appends, parameterized by
the project fields and the id counters at the start of the run (`P`, `E`,
`T`) and the three configured names.  The lemma `add_initial_project_plan_eq`
below proves these agree with the operational definition. -/

/-- The three phase rows of one skeleton: project id `pid`, start date `d`,
target end date `tgt`, first phase id `P`. -/
def skeletonPhases (pid d : Nat) (tgt : Option Nat) (P : Nat) : List Phase :=
  [⟨P, pid, "Phase 1: Inception & Detailed Planning (Weeks 1-4)",
    some d, some (d + 4 * 7),
    some "Establish foundational understanding, detailed requirements, and initial design for key modules."⟩,
   ⟨P + 1, pid, "Phase 2: Iterative Development & Delivery (Months 2-6)",
    some (d + 4 * 7), some (d + (4 + 5 * 4) * 7),
    some "Develop, unit test, and deliver functional modules in iterations."⟩,
   ⟨P + 2, pid, "Phase 3: UAT & Deployment Readiness (Month 7)",
    some (d + (4 + 5 * 4) * 7), tgt,
    some "Achieve client sign-off on functionality, prepare for production deployment."⟩]

/-- The seven epic rows of one skeleton: first phase id `P`, first epic id
`E`; epics 1-2 belong to Phase 1, epics 3-5 to Phase 2, epics 6-7 to
Phase 3. -/
def skeletonEpics (P E : Nat) : List Epic :=
  [⟨E, P, "Requirements Gathering & Reverse Engineering",
    some "Gather business & technical requirements, reverse engineer vendor product.",
    "Planned"⟩,
   ⟨E + 1, P, "Technical Design & Initial POCs",
    some "Develop overall architectural design and conduct critical proof of concepts.",
    "Planned"⟩,
   ⟨E + 2, P + 1, "Ingress Module Development",
    some "Develop data pipelines for 20 source systems into MDM.", "Planned"⟩,
   ⟨E + 3, P + 1, "Egress Module Development",
    some "Pull data from CRM, identify deltas, and write to CSV files.",
    "Planned"⟩,
   ⟨E + 4, P + 1, "MDM Customization & Configuration",
    some "Implement Data Quality, Validations, UI, RBAC based on requirements.",
    "Planned"⟩,
   ⟨E + 5, P + 2, "User Acceptance Testing (UAT)",
    some "Client-led testing and defect resolution.", "Planned"⟩,
   ⟨E + 6, P + 2, "Deployment Readiness & Go-Live",
    some "Final preparations for production deployment.", "Planned"⟩]

/-- The twenty-six task rows of one skeleton: project start date `d`, first
epic id `E`, first task id `T`, configured names `a`, `b`, `c`. -/
def skeletonTasks (d E T : Nat) (a b c : Option String) : List Task :=
  let s1 := match a with | some s => s | none => "SSA1"
  let s2 := match b with | some s => s | none => "SA2"
  let s3 := match c with | some s => s | none => "Offshore PM"
  [⟨T, E, "Client Kick-off & Expectations Alignment",
    some "Formal kick-off with client to align on scope and communication.",
    some s1, "High", "To Do", none, none, some (d + 3), none⟩,
   ⟨T + 1, E, "Vendor Product Architecture Deep Dive",
    some "Dissect existing on-prem MDM product for architecture, APIs, and customization points.",
    some (s1 ++ ", " ++ s2), "High", "To Do", none, none, some (d + 7), none⟩,
   ⟨T + 2, E, "Detailed MDM Customization Requirements",
    some "Workshops with client BAs for data quality, validations, UI, RBAC.",
    some s1, "High", "To Do", none, none, some (d + 14), none⟩,
   ⟨T + 3, E, "Ingress Source System Data Mapping (Initial 5)",
    some "Detailed data mapping for the first 5 critical ingress sources.",
    some s2, "High", "To Do", none, none, some (d + 14), none⟩,
   ⟨T + 4, E + 1, "Overall ETL/MDM Solution Architecture",
    some "Design the end-to-end architecture for Ingress, MDM, and Egress.",
    some s1, "High", "To Do", none, none, some (d + 21), none⟩,
   ⟨T + 5, E + 1, "MDM Customization Framework POC",
    some "Prove out a customization approach for the vendor MDM product.",
    some s2, "High", "To Do", none, none, some (d + 21), none⟩,
   ⟨T + 6, E + 1, "Ingress Data Pipeline POC (Connector)",
    some "Validate connectivity and initial data extraction from a complex source.",
    some s2, "Medium", "To Do", none, none, some (d + 28), none⟩,
   ⟨T + 7, E + 1, "Offshore Team Onboarding & Environment Setup",
    some "Ensure offshore team has access, tools, and dev environments ready.",
    some s3, "High", "To Do", none, none, some (d + 28), none⟩,
   ⟨T + 8, E + 2, "Ingress Source 1-5 Development & Unit Test",
    some "Develop and unit test pipelines for first 5 critical sources.",
    some (s3 ++ " (Offshore Team)"), "High", "To Do", none, none, none, none⟩,
   ⟨T + 9, E + 2, "Ingress Source 6-10 Development & Unit Test",
    some "Develop and unit test pipelines for next 5 critical sources.",
    some (s3 ++ " (Offshore Team)"), "Medium", "To Do", none, none, none, none⟩,
   ⟨T + 10, E + 2, "Ingress Source 11-20 Development & Unit Test",
    some "Develop and unit test pipelines for remaining sources.",
    some (s3 ++ " (Offshore Team)"), "Low", "To Do", none, none, none, none⟩,
   ⟨T + 11, E + 2, "Ingress Data Quality & Error Handling",
    some "Implement robust data quality checks and error logging for all pipelines.",
    some s2, "High", "To Do", none, none, none, none⟩,
   ⟨T + 12, E + 3, "Egress CRM Data Extraction Design",
    some "Design efficient extraction of CRM data.",
    some s2, "High", "To Do", none, none, none, none⟩,
   ⟨T + 13, E + 3, "Egress Delta Logic Implementation",
    some "Implement logic to identify and process data deltas.",
    some (s3 ++ " (Offshore Team)"), "High", "To Do", none, none, none, none⟩,
   ⟨T + 14, E + 3, "Egress CSV File Generation",
    some "Develop module to generate formatted CSV files.",
    some (s3 ++ " (Offshore Team)"), "Medium", "To Do", none, none, none, none⟩,
   ⟨T + 15, E + 4, "MDM Data Quality Rules Implementation",
    some "Implement core data quality rules within MDM.",
    some (s3 ++ " (Offshore Team)"), "High", "To Do", none, none, none, none⟩,
   ⟨T + 16, E + 4, "MDM Data Validation Logic",
    some "Implement custom data validation rules.",
    some (s3 ++ " (Offshore Team)"), "High", "To Do", none, none, none, none⟩,
   ⟨T + 17, E + 4, "MDM UI Customization (Key Screens)",
    some "Customize essential UI screens for data stewardship.",
    some (s3 ++ " (Offshore Team)"), "Medium", "To Do", none, none, none, none⟩,
   ⟨T + 18, E + 4, "MDM RBAC Configuration & Testing",
    some "Configure Role-Based Access Control and test permissions.",
    some s2, "High", "To Do", none, none, none, none⟩,
   ⟨T + 19, E + 4, "MDM Workflow Customization (if applicable)",
    some "Customize data approval/stewardship workflows.",
    some (s3 ++ " (Offshore Team)"), "Medium", "To Do", none, none, none, none⟩,
   ⟨T + 20, E + 5, "UAT Test Case Review & Preparation",
    some "Work with client BAs to finalize UAT test cases.",
    some s1, "High", "To Do", none, none, none, none⟩,
   ⟨T + 21, E + 5, "UAT Environment Setup & Data Load",
    some "Prepare and load data into UAT environment.",
    some s2, "High", "To Do", none, none, none, none⟩,
   ⟨T + 22, E + 5, "UAT Defect Triage & Resolution Cycles",
    some "Manage, prioritize, and resolve defects found during UAT.",
    some (s3 ++ " (Offshore Team), " ++ s1), "High", "To Do", none, none, none,
    none⟩,
   ⟨T + 23, E + 6, "Production Deployment Plan",
    some "Develop detailed plan including rollback strategy.",
    some s1, "High", "To Do", none, none, none, none⟩,
   ⟨T + 24, E + 6, "Pre-Go-Live System Health Checks",
    some "Perform final checks on performance, data integrity.",
    some s2, "High", "To Do", none, none, none, none⟩,
   ⟨T + 25, E + 6, "Post-Go-Live Support Plan",
    some "Define support structure for immediate post-deployment.",
    some s1, "High", "To Do", none, none, none, none⟩]

/-! ### `ConfigManager` (`src/config.py`)

`ConfigManager` wraps `configparser.ConfigParser()` with its defaults: keys
are normalized by `optionxform` (lower-casing), and values pass through
`BasicInterpolation` — `before_set` validation on write and `%`-expansion on
read.  A configuration is an association list of sections, each an
association list of (normalized) keys to raw stored values. -/

/-- One section: key/value pairs in insertion order, keys already
normalized. -/
abbrev CfgSection := List (String × String)

/-- The in-memory parser state: named sections in insertion order. -/
abbrev Config := List (String × CfgSection)

/-- Errors raised through `ConfigManager`: `valueError` is the `ValueError`
of `before_set` on malformed `%` syntax; the interpolation errors are raised
by `_interpolate_some` during a read. -/
inductive ConfigError where
  | valueError
  | interpolationSyntax
  | interpolationMissing
  | interpolationDepth
deriving DecidableEq, Repr

/-- `ConfigParser.optionxform`: keys are lower-cased (character-wise, as
`str.lower()` does on the ASCII keys used here). -/
def optionxform (k : String) : String := String.mk (k.data.map Char.toLower)

/-- Key lookup in one section (keys stored normalized). -/
def kvLookup : CfgSection → String → Option String
  | [], _ => none
  | (k0, v0) :: rest, k => if k0 == k then some v0 else kvLookup rest k

/-- Section lookup (section names are not normalized). -/
def sectLookup : Config → String → Option CfgSection
  | [], _ => none
  | (s0, items) :: rest, s => if s0 == s then some items else sectLookup rest s

/-- Replace the value at a key, or append the pair when the key is new. -/
def setKV (items : CfgSection) (k v : String) : CfgSection :=
  match items with
  | [] => [(k, v)]
  | (k0, v0) :: rest =>
      if k0 == k then (k0, v) :: rest else (k0, v0) :: setKV rest k v

/-- Store a value under a section, creating the section when absent
(`if section not in self.config: self.config[section] = {}`). -/
def setSection (cfg : Config) (s k v : String) : Config :=
  match cfg with
  | [] => [(s, [(k, v)])]
  | (s0, items) :: rest =>
      if s0 == s then (s0, setKV items k v) :: rest
      else (s0, items) :: setSection rest s k v

/-! #### `BasicInterpolation.before_set`

CPython first deletes every `%%` pair, then deletes every match of the
reference pattern `%(...)s` (one or more non-parenthesis key characters),
and rejects the value when a `%` survives. -/

/-- `value.replace(chr(37) ++ chr(37), empty)`: drop double-percent pairs,
scanning left to right. -/
def stripPercentPairs : List Char → List Char
  | [] => []
  | [c] => [c]
  | c :: d :: r =>
      if c = '%' ∧ d = '%' then stripPercentPairs r
      else c :: stripPercentPairs (d :: r)

/-- Split a character list at the first closing parenthesis, returning the
(nonempty) key and the remainder; this is the `[^)]+\)` part of the
reference pattern. -/
def splitAtParen : List Char → Option (List Char × List Char)
  | [] => none
  | ')' :: r => some ([], r)
  | c :: r =>
      match splitAtParen r with
      | some (k, rest) => some (c :: k, rest)
      | none => none

/-- Match the tail of a `%(key)s` reference against `r` (the characters
after the leading percent-parenthesis), returning the key and the remainder
after the trailing `s`. -/
def splitRef (r : List Char) : Option (List Char × List Char) :=
  match splitAtParen r with
  | some (k, rest) =>
      match k, rest with
      | [], _ => none
      | _, 's' :: r2 => some (k, r2)
      | _, _ => none
  | none => none

/-- Regex-substitution pass deleting every `%(key)s` occurrence: on a failed
match at a `%(`, the `%` is kept and scanning resumes at the parenthesis.
The explicit fuel (instantiated with the list length, which bounds the
number of steps) keeps the recursion structural. -/
def stripKeyRefsGo : Nat → List Char → List Char
  | 0, l => l
  | _ + 1, [] => []
  | f + 1, c :: r =>
      if c = '%' then
        match r with
        | '(' :: r2 =>
            match splitRef r2 with
            | some (_, rest) => stripKeyRefsGo f rest
            | none => c :: stripKeyRefsGo f r
        | _ => c :: stripKeyRefsGo f r
      else c :: stripKeyRefsGo f r

/-- Delete every `%(key)s` reference occurrence. -/
def stripKeyRefs (l : List Char) : List Char := stripKeyRefsGo l.length l

/-- `before_set` accepts a value iff no stray `%` survives after deleting
`%%` pairs and `%(key)s` references. -/
def beforeSetOk (value : List Char) : Bool :=
  ! (stripKeyRefs (stripPercentPairs value)).any (fun c => c == '%')

/-! #### `BasicInterpolation.before_get`

Read-side expansion (`_interpolate_some`): `%%` yields a literal `%`, any
other stray `%` raises an interpolation syntax error, and a `%(key)s`
reference fetches the raw value of `key` in the same section — splicing it
directly when it contains no percent character, and otherwise expanding it
one nesting level deeper.  Entering a level past
`MAX_INTERPOLATION_DEPTH = 10` raises the depth error at entry, before any
scanning.  The scan is split into a structural tokenizer and a
depth-indexed expander. -/

/-- One lexical item of a stored value. -/
inductive CfgTok where
  | lit (c : Char)
  | esc
  | ref (key : String)
deriving DecidableEq, Repr

/-- Tokenizer state: inside a possible `%%` / `%(key)s`. -/
inductive TokState where
  | norm
  | sawPct
  | inKey (acc : List Char)
  | sawClose (acc : List Char)

/-- Scan a raw value into tokens, raising the syntax error exactly where
`_interpolate_some` does: a `%` must begin `%%` or a complete `%(key)s`. -/
def tokenizeGo : TokState → List Char → Except ConfigError (List CfgTok)
  | TokState.norm, [] => Except.ok []
  | TokState.norm, c :: r =>
      if c = '%' then tokenizeGo TokState.sawPct r
      else (tokenizeGo TokState.norm r).map (fun ts => CfgTok.lit c :: ts)
  | TokState.sawPct, [] => Except.error ConfigError.interpolationSyntax
  | TokState.sawPct, c :: r =>
      if c = '%' then
        (tokenizeGo TokState.norm r).map (fun ts => CfgTok.esc :: ts)
      else if c = '(' then tokenizeGo (TokState.inKey []) r
      else Except.error ConfigError.interpolationSyntax
  | TokState.inKey _, [] => Except.error ConfigError.interpolationSyntax
  | TokState.inKey acc, c :: r =>
      if c = ')' then
        if acc.isEmpty then Except.error ConfigError.interpolationSyntax
        else tokenizeGo (TokState.sawClose acc) r
      else tokenizeGo (TokState.inKey (acc ++ [c])) r
  | TokState.sawClose _, [] => Except.error ConfigError.interpolationSyntax
  | TokState.sawClose acc, c :: r =>
      if c = 's' then
        (tokenizeGo TokState.norm r).map
          (fun ts => CfgTok.ref (String.mk acc) :: ts)
      else Except.error ConfigError.interpolationSyntax

/-- Tokenize a raw stored value. -/
def tokenize (l : List Char) : Except ConfigError (List CfgTok) :=
  tokenizeGo TokState.norm l

/-- Expand one token list.  A reference fetches the raw value of its key
and — exactly as `_interpolate_some` does — splices it directly when it
contains no percent character, and otherwise hands it to `deeper`, the
expander for the next nesting level. -/
def interpTokensAt (sect : CfgSection)
    (deeper : List Char → Except ConfigError (List Char)) :
    List CfgTok → Except ConfigError (List Char)
  | [] => Except.ok []
  | CfgTok.lit c :: ts =>
      (interpTokensAt sect deeper ts).map (fun cs => c :: cs)
  | CfgTok.esc :: ts =>
      (interpTokensAt sect deeper ts).map (fun cs => '%' :: cs)
  | CfgTok.ref k :: ts =>
      match kvLookup sect (optionxform k) with
      | some v =>
          if '%' ∈ v.data then
            match deeper v.data with
            | Except.error e => Except.error e
            | Except.ok inner =>
                (interpTokensAt sect deeper ts).map
                  (fun rest => inner ++ rest)
          else
            (interpTokensAt sect deeper ts).map (fun rest => v.data ++ rest)
      | none => Except.error ConfigError.interpolationMissing

/-- One nesting level of `_interpolate_some`, indexed by the number of
levels still allowed.  The top-level call of `before_get` runs at depth 1
with `MAX_INTERPOLATION_DEPTH = 10`, so ten levels remain; entering a level
past the maximum raises the depth error immediately, before any scanning,
exactly as CPython raises `InterpolationDepthError` at function entry. -/
def interpSome (sect : CfgSection) :
    Nat → List Char → Except ConfigError (List Char)
  | 0, _ => Except.error ConfigError.interpolationDepth
  | d + 1, l =>
      match tokenize l with
      | Except.error e => Except.error e
      | Except.ok toks => interpTokensAt sect (interpSome sect d) toks

/-- Full `before_get` expansion of a raw value against its section. -/
def interpolateValue (sect : CfgSection) (v : String) :
    Except ConfigError String :=
  (interpSome sect 10 v.data).map (fun cs => String.mk cs)

/-- `get_property(section, key)`: `config.get(section, key, fallback=None)`.
A missing section or key yields the fallback (`Except.ok none`); a present
raw value is returned after interpolation, whose errors propagate. -/
def get_property (cfg : Config) (s key : String) :
    Except ConfigError (Option String) :=
  match sectLookup cfg s with
  | none => Except.ok none
  | some items =>
      match kvLookup items (optionxform key) with
      | none => Except.ok none
      | some v => (interpolateValue items v).map (fun s => some s)

/-- `set_property(section, key, value)`: ensures the section exists, then
stores `str(value)` under the normalized key after `before_set` validation
(the argument here is already the string conversion).  On a validation
error the `ValueError` propagates out of `set_property`; the section
created by the guard clause remains. -/
def set_property (cfg : Config) (s key value : String) :
    Except ConfigError Unit × Config :=
  let cfg' := if (sectLookup cfg s).isSome then cfg
              else cfg ++ [(s, [])]
  if beforeSetOk value.data then
    (Except.ok (), setSection cfg' s (optionxform key) value)
  else
    (Except.error ConfigError.valueError, cfg')

/-! ### Concrete test fixtures

A small populated database used to instantiate the hypotheses of the claim
theorems: two projects, each with one phase, one epic and one task. -/

/-- Fixture task of project 1: already Done with a recorded completion. -/
def wt1 : Task :=
  ⟨1, 1, "Kickoff", none, some "A", "High", "Done", none, none, some 200, some 50⟩

/-- Fixture task of project 2. -/
def wt2 : Task :=
  ⟨2, 2, "Other", none, none, "Low", "To Do", none, none, none, none⟩

/-- Fixture database with two single-chain projects. -/
def wdb : DB :=
  ⟨[⟨1, "Alpha", 100, some 300, "Planned"⟩, ⟨2, "Beta", 100, some 300, "Planned"⟩],
   [⟨1, 1, "Ph1", none, none, none⟩, ⟨2, 2, "Ph2", none, none, none⟩],
   [⟨1, 1, "E1", none, "Planned"⟩, ⟨2, 2, "E2", none, "Planned"⟩],
   [wt1, wt2], [], [], 3, 3, 3, 3, 1, 1⟩

/-! ## Supporting lemmas for the configuration store -/

/-- A value with no percent character is untouched by the double-percent
deletion pass. -/
theorem stripPercentPairs_no_pct : ∀ l : List Char,
    '%' ∉ l → stripPercentPairs l = l := by
  intro l
  induction l with
  | nil => intro _; rfl
  | cons c r ih =>
    intro h
    have hc : c ≠ '%' := fun hcc => h (hcc ▸ List.mem_cons_self c r)
    have hr : '%' ∉ r := fun hm => h (List.mem_cons_of_mem _ hm)
    cases r with
    | nil => rfl
    | cons d r2 =>
      have hnot : ¬ (c = '%' ∧ d = '%') := fun hp => hc hp.1
      simp only [stripPercentPairs, if_neg hnot]
      exact congrArg (c :: ·) (ih hr)

/-- A value with no percent character is untouched by the reference-deletion
pass. -/
theorem stripKeyRefsGo_no_pct : ∀ (f : Nat) (l : List Char),
    '%' ∉ l → stripKeyRefsGo f l = l := by
  intro f
  induction f with
  | zero => intro l _; rfl
  | succ f ih =>
    intro l h
    cases l with
    | nil => rfl
    | cons c r =>
      have hc : c ≠ '%' := fun hcc => h (hcc ▸ List.mem_cons_self c r)
      have hr : '%' ∉ r := fun hm => h (List.mem_cons_of_mem _ hm)
      simp only [stripKeyRefsGo, if_neg hc]
      exact congrArg (c :: ·) (ih r hr)

/-- `before_set` accepts every value with no percent character. -/
theorem beforeSetOk_no_pct (l : List Char) (h : '%' ∉ l) :
    beforeSetOk l = true := by
  unfold beforeSetOk stripKeyRefs
  rw [stripPercentPairs_no_pct l h, stripKeyRefsGo_no_pct _ l h]
  have hany : l.any (fun c => c == '%') = false := by
    rw [List.any_eq_false]
    intro x hx
    have hxne : x ≠ '%' := fun hxx => h (hxx ▸ hx)
    simpa using hxne
  rw [hany]
  rfl

/-- A value with no percent character tokenizes to its characters as
literals. -/
theorem tokenizeGo_norm_no_pct : ∀ l : List Char, '%' ∉ l →
    tokenizeGo TokState.norm l = Except.ok (l.map CfgTok.lit) := by
  intro l
  induction l with
  | nil => intro _; rfl
  | cons c r ih =>
    intro h
    have hc : c ≠ '%' := fun hcc => h (hcc ▸ List.mem_cons_self c r)
    have hr : '%' ∉ r := fun hm => h (List.mem_cons_of_mem _ hm)
    simp only [tokenizeGo, if_neg hc, ih hr, Except.map, List.map]

/-- Literal tokens expand to themselves under any deeper expander. -/
theorem interpTokensAt_lits (sect : CfgSection)
    (deeper : List Char → Except ConfigError (List Char)) :
    ∀ l : List Char,
      interpTokensAt sect deeper (l.map CfgTok.lit) = Except.ok l := by
  intro l
  induction l with
  | nil => rfl
  | cons c r ih => simp only [List.map, interpTokensAt, ih, Except.map]

/-- At any allowed nesting level, a percent-free value expands to
itself. -/
theorem interpSome_succ_no_pct (sect : CfgSection) (d : Nat) (l : List Char)
    (h : '%' ∉ l) : interpSome sect (d + 1) l = Except.ok l := by
  unfold interpSome
  simp only [show tokenize l = Except.ok (l.map CfgTok.lit) from
    tokenizeGo_norm_no_pct l h]
  exact interpTokensAt_lits sect (interpSome sect d) l

/-- Interpolation returns a percent-free raw value unchanged. -/
theorem interpolateValue_no_pct (sect : CfgSection) (v : String)
    (h : '%' ∉ v.data) : interpolateValue sect v = Except.ok v := by
  unfold interpolateValue
  have h10 : interpSome sect 10 v.data = Except.ok v.data :=
    interpSome_succ_no_pct sect 9 v.data h
  rw [h10]
  rfl

/-- Looking up the key just written finds the written value. -/
theorem kvLookup_setKV : ∀ (items : CfgSection) (k v : String),
    kvLookup (setKV items k v) k = some v := by
  intro items k v
  induction items with
  | nil => simp [setKV, kvLookup]
  | cons p rest ih =>
    rcases p with ⟨k0, v0⟩
    by_cases h : k0 = k
    · simp [setKV, h, kvLookup]
    · have hb : (k0 == k) = false := by simpa using h
      simp only [setKV, hb, Bool.false_eq_true, if_false, kvLookup]
      exact ih

/-- Looking up the section just written finds the section with the written
key/value stored. -/
theorem sectLookup_setSection : ∀ (cfg : Config) (s k v : String),
    sectLookup (setSection cfg s k v) s =
      some (setKV ((sectLookup cfg s).getD []) k v) := by
  intro cfg s k v
  induction cfg with
  | nil => simp [setSection, sectLookup, setKV]
  | cons p rest ih =>
    rcases p with ⟨s0, items⟩
    by_cases h : s0 = s
    · simp [setSection, h, sectLookup]
    · have hb : (s0 == s) = false := by simpa using h
      simp only [setSection, hb, Bool.false_eq_true, if_false, sectLookup]
      exact ih

/-- `get_property` on a present section and key interpolates the raw
value. -/
theorem get_property_of_found {cfg : Config} {s k : String}
    {items : CfgSection} {v : String}
    (h1 : sectLookup cfg s = some items)
    (h2 : kvLookup items (optionxform k) = some v) :
    get_property cfg s k = (interpolateValue items v).map (fun x => some x) := by
  unfold get_property
  simp only [h1, h2]

/-! ## Claim theorems -/

/-- One run of the generator appends exactly the skeleton rows: the three
phases, seven epics and twenty-six tasks in closed form, and advances the
id counters by 3, 7 and 26. -/
theorem add_initial_project_plan_eq (db : DB) (pr : Project) (a b c : Option String) :
    add_initial_project_plan db pr a b c =
      ⟨db.projects,
       db.phases ++ skeletonPhases pr.id pr.start_date pr.end_date_target db.nextPhaseId,
       db.epics ++ skeletonEpics db.nextPhaseId db.nextEpicId,
       db.tasks ++ skeletonTasks pr.start_date db.nextEpicId db.nextTaskId a b c,
       db.subtasks, db.daily_logs,
       db.nextProjectId, db.nextPhaseId + 3, db.nextEpicId + 7,
       db.nextTaskId + 26, db.nextSubTaskId, db.nextDailyLogId⟩ := by
  simp [add_initial_project_plan, add_phase, add_epic, add_task,
    skeletonPhases, skeletonEpics, skeletonTasks, Nat.add_assoc]

/-- C5, counterexample.  On a concrete fresh project the second phase the
generator creates (the Phase 2 row, id 2) has 12 tasks under its epics,
not the 14 the claim states. -/
theorem claim_C5_counterexample :
    ((add_initial_project_plan
      ⟨[⟨1, "ACME", 700, some 900, "Planned"⟩], [], [], [], [], [], 2, 1, 1, 1, 1, 1⟩
      ⟨1, "ACME", 700, some 900, "Planned"⟩ none none none).phases.map
        Phase.id) = [1, 2, 3] ∧
    (tasksUnderPhase (add_initial_project_plan
      ⟨[⟨1, "ACME", 700, some 900, "Planned"⟩], [], [], [], [], [], 2, 1, 1, 1, 1, 1⟩
      ⟨1, "ACME", 700, some 900, "Planned"⟩ none none none) 2).length ≠ 14 := by
  constructor
  · simp [add_initial_project_plan, add_phase, add_epic, add_task]
  · simp [add_initial_project_plan, add_phase, add_epic, add_task,
      tasksUnderPhase]

/-- C5, amended.  One run of the generator on any project appends: Phase 1
spanning start to start+4 weeks, Phase 2 spanning start+4 weeks to
start+24 weeks, Phase 3 spanning start+24 weeks to the target end date;
seven new epics of which 2 belong to Phase 1, 3 to Phase 2 and 2 to
Phase 3; and twenty-six new tasks — 8 under the Phase 1 epics with due
dates start+{3,7,14,14,21,21,28,28} days, 12 (not 14) under the Phase 2
epics and 6 under the Phase 3 epics, all 18 without due dates. -/
theorem claim_C5_skeleton (db : DB) (pr : Project) (a b c : Option String) :
    (add_initial_project_plan db pr a b c).phases =
      db.phases ++
        [⟨db.nextPhaseId, pr.id,
          "Phase 1: Inception & Detailed Planning (Weeks 1-4)",
          some pr.start_date, some (pr.start_date + 4 * 7),
          some "Establish foundational understanding, detailed requirements, and initial design for key modules."⟩,
         ⟨db.nextPhaseId + 1, pr.id,
          "Phase 2: Iterative Development & Delivery (Months 2-6)",
          some (pr.start_date + 4 * 7), some (pr.start_date + 24 * 7),
          some "Develop, unit test, and deliver functional modules in iterations."⟩,
         ⟨db.nextPhaseId + 2, pr.id,
          "Phase 3: UAT & Deployment Readiness (Month 7)",
          some (pr.start_date + 24 * 7), pr.end_date_target,
          some "Achieve client sign-off on functionality, prepare for production deployment."⟩] ∧
    (add_initial_project_plan db pr a b c).epics.take db.epics.length = db.epics ∧
    ((add_initial_project_plan db pr a b c).epics.drop db.epics.length).map
      Epic.phase_id =
      [db.nextPhaseId, db.nextPhaseId,
       db.nextPhaseId + 1, db.nextPhaseId + 1, db.nextPhaseId + 1,
       db.nextPhaseId + 2, db.nextPhaseId + 2] ∧
    (add_initial_project_plan db pr a b c).tasks.take db.tasks.length = db.tasks ∧
    ((add_initial_project_plan db pr a b c).tasks.drop db.tasks.length).map
      Task.epic_id =
      [db.nextEpicId, db.nextEpicId, db.nextEpicId, db.nextEpicId,
       db.nextEpicId + 1, db.nextEpicId + 1, db.nextEpicId + 1,
       db.nextEpicId + 1,
       db.nextEpicId + 2, db.nextEpicId + 2, db.nextEpicId + 2,
       db.nextEpicId + 2,
       db.nextEpicId + 3, db.nextEpicId + 3, db.nextEpicId + 3,
       db.nextEpicId + 4, db.nextEpicId + 4, db.nextEpicId + 4,
       db.nextEpicId + 4, db.nextEpicId + 4,
       db.nextEpicId + 5, db.nextEpicId + 5, db.nextEpicId + 5,
       db.nextEpicId + 6, db.nextEpicId + 6, db.nextEpicId + 6] ∧
    ((add_initial_project_plan db pr a b c).tasks.drop db.tasks.length).map
      Task.due_date =
      [some (pr.start_date + 3), some (pr.start_date + 7),
       some (pr.start_date + 14), some (pr.start_date + 14),
       some (pr.start_date + 21), some (pr.start_date + 21),
       some (pr.start_date + 28), some (pr.start_date + 28),
       none, none, none, none, none, none, none, none, none,
       none, none, none, none, none, none, none, none, none] := by
  refine ⟨?_, ?_, ?_, ?_, ?_, ?_⟩ <;>
    simp [add_initial_project_plan, add_phase, add_epic, add_task,
      Nat.add_assoc, List.take_left, List.drop_left]

/-- C6.  The generator is not idempotent: running it a second time on the
same project keeps the first skeleton as an untouched prefix and appends a
second complete skeleton — 3 more phases of that same project (with the
three fresh ids), 7 more epics wired to those new phases, and 26 more
tasks — instead of replacing the first skeleton or rejecting the call. -/
theorem claim_C6_append_twice (db : DB) (pr : Project) (a b c : Option String) :
    (add_initial_project_plan (add_initial_project_plan db pr a b c) pr a b c).phases.take
        (add_initial_project_plan db pr a b c).phases.length =
      (add_initial_project_plan db pr a b c).phases ∧
    (add_initial_project_plan (add_initial_project_plan db pr a b c) pr a b c).phases.length =
      (add_initial_project_plan db pr a b c).phases.length + 3 ∧
    ((add_initial_project_plan (add_initial_project_plan db pr a b c) pr a b c).phases.drop
        (add_initial_project_plan db pr a b c).phases.length).map Phase.project_id =
      [pr.id, pr.id, pr.id] ∧
    ((add_initial_project_plan (add_initial_project_plan db pr a b c) pr a b c).phases.drop
        (add_initial_project_plan db pr a b c).phases.length).map Phase.id =
      [(add_initial_project_plan db pr a b c).nextPhaseId,
       (add_initial_project_plan db pr a b c).nextPhaseId + 1,
       (add_initial_project_plan db pr a b c).nextPhaseId + 2] ∧
    (add_initial_project_plan (add_initial_project_plan db pr a b c) pr a b c).epics.take
        (add_initial_project_plan db pr a b c).epics.length =
      (add_initial_project_plan db pr a b c).epics ∧
    (add_initial_project_plan (add_initial_project_plan db pr a b c) pr a b c).epics.length =
      (add_initial_project_plan db pr a b c).epics.length + 7 ∧
    ((add_initial_project_plan (add_initial_project_plan db pr a b c) pr a b c).epics.drop
        (add_initial_project_plan db pr a b c).epics.length).map Epic.phase_id =
      [(add_initial_project_plan db pr a b c).nextPhaseId,
       (add_initial_project_plan db pr a b c).nextPhaseId,
       (add_initial_project_plan db pr a b c).nextPhaseId + 1,
       (add_initial_project_plan db pr a b c).nextPhaseId + 1,
       (add_initial_project_plan db pr a b c).nextPhaseId + 1,
       (add_initial_project_plan db pr a b c).nextPhaseId + 2,
       (add_initial_project_plan db pr a b c).nextPhaseId + 2] ∧
    (add_initial_project_plan (add_initial_project_plan db pr a b c) pr a b c).tasks.take
        (add_initial_project_plan db pr a b c).tasks.length =
      (add_initial_project_plan db pr a b c).tasks ∧
    (add_initial_project_plan (add_initial_project_plan db pr a b c) pr a b c).tasks.length =
      (add_initial_project_plan db pr a b c).tasks.length + 26 ∧
    ((add_initial_project_plan (add_initial_project_plan db pr a b c) pr a b c).tasks.drop
        (add_initial_project_plan db pr a b c).tasks.length).map Task.epic_id =
      [(add_initial_project_plan db pr a b c).nextEpicId,
       (add_initial_project_plan db pr a b c).nextEpicId,
       (add_initial_project_plan db pr a b c).nextEpicId,
       (add_initial_project_plan db pr a b c).nextEpicId,
       (add_initial_project_plan db pr a b c).nextEpicId + 1,
       (add_initial_project_plan db pr a b c).nextEpicId + 1,
       (add_initial_project_plan db pr a b c).nextEpicId + 1,
       (add_initial_project_plan db pr a b c).nextEpicId + 1,
       (add_initial_project_plan db pr a b c).nextEpicId + 2,
       (add_initial_project_plan db pr a b c).nextEpicId + 2,
       (add_initial_project_plan db pr a b c).nextEpicId + 2,
       (add_initial_project_plan db pr a b c).nextEpicId + 2,
       (add_initial_project_plan db pr a b c).nextEpicId + 3,
       (add_initial_project_plan db pr a b c).nextEpicId + 3,
       (add_initial_project_plan db pr a b c).nextEpicId + 3,
       (add_initial_project_plan db pr a b c).nextEpicId + 4,
       (add_initial_project_plan db pr a b c).nextEpicId + 4,
       (add_initial_project_plan db pr a b c).nextEpicId + 4,
       (add_initial_project_plan db pr a b c).nextEpicId + 4,
       (add_initial_project_plan db pr a b c).nextEpicId + 4,
       (add_initial_project_plan db pr a b c).nextEpicId + 5,
       (add_initial_project_plan db pr a b c).nextEpicId + 5,
       (add_initial_project_plan db pr a b c).nextEpicId + 5,
       (add_initial_project_plan db pr a b c).nextEpicId + 6,
       (add_initial_project_plan db pr a b c).nextEpicId + 6,
       (add_initial_project_plan db pr a b c).nextEpicId + 6] := by
  refine ⟨?_, ?_, ?_, ?_, ?_, ?_, ?_, ?_, ?_, ?_⟩ <;>
    simp [add_initial_project_plan_eq, skeletonPhases, skeletonEpics,
      skeletonTasks, List.take_append, List.drop_append, Nat.add_assoc]



/-- C7, counterexample.  The claimed round-trip is not exact for every
value: `str(v)` for `v` the two-character string of two percents is stored
verbatim by `setProperty`, but `getProperty` returns the single-character
percent string after BasicInterpolation collapses the escape, which
differs from `str(v)`. -/
theorem claim_C7_counterexample :
    (set_property [] "S" "K" "%%").1 = Except.ok () ∧
    get_property (set_property [] "S" "K" "%%").2 "S" "K" =
      Except.ok (some "%") ∧
    ("%" : String) ≠ "%%" :=
  ⟨by decide, by decide, by decide⟩

/-- C7, amended.  For every configuration state, section, key and value
whose string conversion contains no percent character, `setProperty`
followed by `getProperty` on the same section and key returns exactly that
string (the argument `v` stands for `str(v)`, the conversion `set_property`
applies before storing). -/
theorem claim_C7_roundtrip (cfg : Config) (s k v : String)
    (hv : '%' ∉ v.data) :
    (set_property cfg s k v).1 = Except.ok () ∧
    get_property (set_property cfg s k v).2 s k = Except.ok (some v) := by
  have hok : beforeSetOk v.data = true := beforeSetOk_no_pct v.data hv
  have h2 : (set_property cfg s k v).2 =
      setSection (if (sectLookup cfg s).isSome then cfg else cfg ++ [(s, [])])
        s (optionxform k) v := by
    simp [set_property, hok]
  refine ⟨by simp [set_property, hok], ?_⟩
  rw [h2, get_property_of_found (sectLookup_setSection _ _ _ _)
    (kvLookup_setKV _ _ _), interpolateValue_no_pct _ _ hv]
  rfl

/-- C7 witness: a percent-free value round-trips exactly. -/
theorem claim_C7_roundtrip_witness :
    '%' ∉ "Jane Doe".data ∧
    ((set_property [] "TEAM_MEMBERS" "SSA1_Name" "Jane Doe").1 =
        Except.ok () ∧
      get_property (set_property [] "TEAM_MEMBERS" "SSA1_Name" "Jane Doe").2
        "TEAM_MEMBERS" "SSA1_Name" = Except.ok (some "Jane Doe")) :=
  ⟨by decide,
   claim_C7_roundtrip [] "TEAM_MEMBERS" "SSA1_Name" "Jane Doe" (by decide)⟩

/-- C2, counterexample.  The claim says `addPhase` with a parent id naming no
existing project fails with a typed ParentNotFound error.  In the code the
call silently inserts the row: on an empty database (no project at all),
`add_phase` with project id 1 stores a phase row referencing project 1. -/
theorem claim_C2_counterexample :
    emptyDB.projects = [] ∧
    (add_phase emptyDB 1 "Phase" "Desc" none none).2.phases ≠ [] ∧
    (add_phase emptyDB 1 "Phase" "Desc" none none).1.project_id = 1 :=
  ⟨rfl, by decide, rfl⟩

/-- C2, amended.  `add_phase`, `add_epic` and `add_task` perform no
parent-existence check: for every database state — in particular one where
the given parent id references no row — they unconditionally append the new
child row carrying that parent id and return it; no error is ever raised
(the SQLite backing store does not enforce foreign keys by default). -/
theorem claim_C2_unchecked_parent_insert (db : DB) (pid phid eid : Nat)
    (nm ds asg pri st : String) (jl : Option String) (sd ed dd : Option Nat) :
    ((add_phase db pid nm ds sd ed).2.phases =
        db.phases ++ [(add_phase db pid nm ds sd ed).1] ∧
      (add_phase db pid nm ds sd ed).1.project_id = pid) ∧
    ((add_epic db phid nm ds st).2.epics =
        db.epics ++ [(add_epic db phid nm ds st).1] ∧
      (add_epic db phid nm ds st).1.phase_id = phid) ∧
    ((add_task db eid nm ds asg pri st jl sd dd).2.tasks =
        db.tasks ++ [(add_task db eid nm ds asg pri st jl sd dd).1] ∧
      (add_task db eid nm ds asg pri st jl sd dd).1.epic_id = eid) :=
  ⟨⟨rfl, rfl⟩, ⟨rfl, rfl⟩, ⟨rfl, rfl⟩⟩

/-- C3.  When a project named `nm` already exists, `create_project` fails
with the typed duplicate-name error (the `unique=True` integrity violation)
and the database — in particular the existing project record — is left
completely unchanged. -/
theorem claim_C3_duplicate_name (db : DB) (nm : String) (sd ed : Nat)
    (h : ∃ p ∈ db.projects, p.name = nm) :
    (create_project db nm sd ed).1 = Except.error DBError.duplicateName ∧
    (create_project db nm sd ed).2 = db := by
  obtain ⟨p, hp, hpn⟩ := h
  have hany : db.projects.any (fun q => q.name == nm) = true :=
    List.any_eq_true.mpr ⟨p, hp, by simp [hpn]⟩
  constructor
  · simp [create_project, hany]
  · simp [create_project, hany]

/-- C3 witness at the fixture database, which already holds "Alpha". -/
theorem claim_C3_duplicate_name_witness :
    (∃ p ∈ wdb.projects, p.name = "Alpha") ∧
    (create_project wdb "Alpha" 5 6).1 = Except.error DBError.duplicateName ∧
    (create_project wdb "Alpha" 5 6).2 = wdb :=
  ⟨by decide, claim_C3_duplicate_name wdb "Alpha" 5 6 (by decide)⟩

/-- C4.  `update_task_status`: (a) on an existing task id, status "Done"
records the current date as the completed date, both in the returned row
and in the store; (b) any other new status — including moving a previously
Done task back to "In Progress" — leaves every completed date in the store
unchanged, and the returned row keeps the old completed date; (c) on a
task id with no row the operation returns the not-found result and leaves
the store untouched. -/
theorem claim_C4_update_status (db : DB) (tid : Nat) (s : String) (today : Nat) :
    ((∃ t ∈ db.tasks, t.id = tid) → s = "Done" →
      (∃ u, (update_task_status db tid s today).1 = some u ∧
        u.completed_date = some today) ∧
      ∀ u ∈ (update_task_status db tid s today).2.tasks,
        u.id = tid → u.completed_date = some today) ∧
    (s ≠ "Done" →
      (update_task_status db tid s today).2.tasks.map Task.completed_date =
        db.tasks.map Task.completed_date ∧
      ∀ u, (update_task_status db tid s today).1 = some u →
        ∃ t ∈ db.tasks, t.id = tid ∧ u.completed_date = t.completed_date) ∧
    ((∀ t ∈ db.tasks, t.id ≠ tid) →
      (update_task_status db tid s today).1 = none ∧
      (update_task_status db tid s today).2 = db) := by
  cases hfind : db.tasks.find? (fun t => t.id == tid) with
  | none =>
    have hu : update_task_status db tid s today = (none, db) := by
      simp only [update_task_status, hfind]
    refine ⟨?_, ?_, ?_⟩
    · rintro ⟨t, ht, rfl⟩ _
      have hc := List.find?_eq_none.mp hfind t ht
      simp at hc
    · intro _
      refine ⟨by simp [hu], ?_⟩
      intro u h
      rw [hu] at h
      simp at h
    · exact fun _ => ⟨by simp [hu], by simp [hu]⟩
  | some t0 =>
    have ht0mem : t0 ∈ db.tasks := List.mem_of_find?_eq_some hfind
    have ht0id : t0.id = tid := by simpa using List.find?_some hfind
    have hu : update_task_status db tid s today =
        (some (applyStatus s today t0),
         { db with tasks := db.tasks.map (fun u =>
             if u.id == tid then applyStatus s today u else u) }) := by
      simp only [update_task_status, hfind]
    have htasks : (update_task_status db tid s today).2.tasks =
        db.tasks.map (fun u =>
          if u.id == tid then applyStatus s today u else u) := by
      rw [hu]
    refine ⟨?_, ?_, ?_⟩
    · rintro - rfl
      constructor
      · refine ⟨applyStatus "Done" today t0, by rw [hu], ?_⟩
        simp [applyStatus]
      · intro u hmem huid
        rw [htasks] at hmem
        rcases List.mem_map.mp hmem with ⟨v, hv, rfl⟩
        revert huid
        split
        · intro _
          simp [applyStatus]
        · next hguard =>
          intro huid
          exact absurd huid (by simpa using hguard)
    · intro hs
      have hsb : (s == "Done") = false := by simpa using hs
      constructor
      · rw [htasks, List.map_map]
        refine List.map_congr_left ?_
        intro x _
        simp only [Function.comp_apply]
        split
        · simp [applyStatus, hsb]
        · rfl
      · intro u hru
        rw [hu] at hru
        obtain rfl : applyStatus s today t0 = u := by simpa using hru
        exact ⟨t0, ht0mem, ht0id, by simp [applyStatus, hsb]⟩
    · intro hall
      exact absurd ht0id (hall t0 ht0mem)

/-- C4 witness: on the fixture, (a) marking task 1 Done stamps day 99;
(b) moving the previously-Done task 1 to "In Progress" leaves all completed
dates unchanged; (c) task id 7 does not exist and updating it is a no-op
returning the not-found result. -/
theorem claim_C4_update_status_witness :
    ((∃ u, (update_task_status wdb 1 "Done" 99).1 = some u ∧
        u.completed_date = some 99) ∧
      ∀ u ∈ (update_task_status wdb 1 "Done" 99).2.tasks,
        u.id = 1 → u.completed_date = some 99) ∧
    ((update_task_status wdb 1 "In Progress" 99).2.tasks.map Task.completed_date =
        wdb.tasks.map Task.completed_date ∧
      ∀ u, (update_task_status wdb 1 "In Progress" 99).1 = some u →
        ∃ t ∈ wdb.tasks, t.id = 1 ∧ u.completed_date = t.completed_date) ∧
    ((update_task_status wdb 7 "Done" 99).1 = none ∧
      (update_task_status wdb 7 "Done" 99).2 = wdb) :=
  ⟨(claim_C4_update_status wdb 1 "Done" 99).1 ⟨wt1, by decide, by decide⟩ rfl,
   (claim_C4_update_status wdb 1 "In Progress" 99).2.1 (by decide),
   (claim_C4_update_status wdb 7 "Done" 99).2.2 (by decide)⟩

/-- C10.  `update_task_status` mutates nothing but the targeted task row:
projects, phases, epics, subtasks and daily logs are untouched; the task
table keeps its length and order; every row keeps its id, name,
description, assignee, priority, external link, start date and due date;
rows with a different id are kept entirely unchanged; and unless the new
status is "Done" even the completed date of the targeted row is
unchanged. -/
theorem claim_C10_frame (db : DB) (tid : Nat) (s : String) (today : Nat) :
    (update_task_status db tid s today).2.projects = db.projects ∧
    (update_task_status db tid s today).2.phases = db.phases ∧
    (update_task_status db tid s today).2.epics = db.epics ∧
    (update_task_status db tid s today).2.subtasks = db.subtasks ∧
    (update_task_status db tid s today).2.daily_logs = db.daily_logs ∧
    List.Forall₂ (fun t u => u.id = t.id ∧ u.name = t.name ∧
      u.tkDescription = t.tkDescription ∧ u.assigned_to = t.assigned_to ∧
      u.priority = t.priority ∧ u.jira_link = t.jira_link ∧
      u.start_date = t.start_date ∧ u.due_date = t.due_date ∧
      (t.id ≠ tid → u = t) ∧ (s ≠ "Done" → u.completed_date = t.completed_date))
      db.tasks (update_task_status db tid s today).2.tasks := by
  cases hfind : db.tasks.find? (fun t => t.id == tid) with
  | none =>
    have hu : update_task_status db tid s today = (none, db) := by
      simp only [update_task_status, hfind]
    have htasks : (update_task_status db tid s today).2.tasks = db.tasks := by
      rw [hu]
    refine ⟨by simp [hu], by simp [hu], by simp [hu], by simp [hu],
      by simp [hu], ?_⟩
    rw [htasks, List.forall₂_same]
    exact fun x _ => ⟨rfl, rfl, rfl, rfl, rfl, rfl, rfl, rfl,
      fun _ => rfl, fun _ => rfl⟩
  | some t0 =>
    have hu : update_task_status db tid s today =
        (some (applyStatus s today t0),
         { db with tasks := db.tasks.map (fun u =>
             if u.id == tid then applyStatus s today u else u) }) := by
      simp only [update_task_status, hfind]
    have htasks : (update_task_status db tid s today).2.tasks =
        db.tasks.map (fun u =>
          if u.id == tid then applyStatus s today u else u) := by
      rw [hu]
    refine ⟨by simp [hu], by simp [hu], by simp [hu], by simp [hu],
      by simp [hu], ?_⟩
    rw [htasks, List.forall₂_map_right_iff, List.forall₂_same]
    intro x _
    split
    · next hguard =>
      have hx : x.id = tid := by simpa using hguard
      refine ⟨rfl, rfl, rfl, rfl, rfl, rfl, rfl, rfl,
        fun hne => absurd hx hne, ?_⟩
      intro hs
      have hsb : (s == "Done") = false := by simpa using hs
      simp [applyStatus, hsb]
    · exact ⟨rfl, rfl, rfl, rfl, rfl, rfl, rfl, rfl,
        fun _ => rfl, fun _ => rfl⟩

/-- C1, counterexample.  On a fresh project with start date 2025-01-06 the
generator creates 26 tasks, not the 28 the claim states (Phase 2 receives
12 tasks — 4 + 3 + 5 across its three epics — not 14). -/
theorem claim_C1_counterexample :
    create_project emptyDB "MDM" (mkDate 2025 1 6) (mkDate 2025 8 6) =
      (Except.ok ⟨1, "MDM", mkDate 2025 1 6, some (mkDate 2025 8 6), "Planned"⟩,
       ⟨[⟨1, "MDM", mkDate 2025 1 6, some (mkDate 2025 8 6), "Planned"⟩],
        [], [], [], [], [], 2, 1, 1, 1, 1, 1⟩) ∧
    (tasksOfProject (add_initial_project_plan
      ⟨[⟨1, "MDM", mkDate 2025 1 6, some (mkDate 2025 8 6), "Planned"⟩],
       [], [], [], [], [], 2, 1, 1, 1, 1, 1⟩
      ⟨1, "MDM", mkDate 2025 1 6, some (mkDate 2025 8 6), "Planned"⟩
      none none none) 1).length ≠ 28 :=
  ⟨rfl, by
    simp [add_initial_project_plan, add_phase, add_epic, add_task,
      tasksOfProject, taskOfProjectB]⟩

/-- C1, amended.  Creating a fresh project with start date 2025-01-06 (any
name, any target end date) returns the stated project row and store, and
running the generator once on that store with no configured team-member
names yields exactly 3 phases, 7 epics and 26 tasks under that project,
and the first task of Phase 1 is due 2025-01-09 (start plus 3 days) with
assignee "SSA1". -/
theorem claim_C1_generator_counts (nm : String) (t : Nat) :
    create_project emptyDB nm (mkDate 2025 1 6) t =
      (Except.ok ⟨1, nm, mkDate 2025 1 6, some t, "Planned"⟩,
       ⟨[⟨1, nm, mkDate 2025 1 6, some t, "Planned"⟩],
        [], [], [], [], [], 2, 1, 1, 1, 1, 1⟩) ∧
    (phasesOfProject (add_initial_project_plan
      ⟨[⟨1, nm, mkDate 2025 1 6, some t, "Planned"⟩], [], [], [], [], [], 2, 1, 1, 1, 1, 1⟩
      ⟨1, nm, mkDate 2025 1 6, some t, "Planned"⟩ none none none)
      1).length = 3 ∧
    (epicsOfProject (add_initial_project_plan
      ⟨[⟨1, nm, mkDate 2025 1 6, some t, "Planned"⟩], [], [], [], [], [], 2, 1, 1, 1, 1, 1⟩
      ⟨1, nm, mkDate 2025 1 6, some t, "Planned"⟩ none none none)
      1).length = 7 ∧
    (tasksOfProject (add_initial_project_plan
      ⟨[⟨1, nm, mkDate 2025 1 6, some t, "Planned"⟩], [], [], [], [], [], 2, 1, 1, 1, 1, 1⟩
      ⟨1, nm, mkDate 2025 1 6, some t, "Planned"⟩ none none none)
      1).length = 26 ∧
    ((tasksUnderPhase (add_initial_project_plan
      ⟨[⟨1, nm, mkDate 2025 1 6, some t, "Planned"⟩], [], [], [], [], [], 2, 1, 1, 1, 1, 1⟩
      ⟨1, nm, mkDate 2025 1 6, some t, "Planned"⟩ none none none)
      1).head?.map Task.due_date) = some (some (mkDate 2025 1 9)) ∧
    ((tasksUnderPhase (add_initial_project_plan
      ⟨[⟨1, nm, mkDate 2025 1 6, some t, "Planned"⟩], [], [], [], [], [], 2, 1, 1, 1, 1, 1⟩
      ⟨1, nm, mkDate 2025 1 6, some t, "Planned"⟩ none none none)
      1).head?.map Task.assigned_to) = some (some "SSA1") := by
  have hdate : mkDate 2025 1 6 + 3 = mkDate 2025 1 9 := by decide
  refine ⟨rfl, ?_, ?_, ?_, ?_, ?_⟩ <;>
    simp [add_initial_project_plan, add_phase, add_epic, add_task,
      phasesOfProject, epicsOfProject, tasksOfProject, taskOfProjectB,
      tasksUnderPhase, hdate]

/-- C8.  The sequence returned by `get_tasks_for_project` is sorted by due
date ascending (tasks without a due date first, the default SQLite placement
of NULLs under ascending order) and, among tasks with equal due dates, by
priority descending under lexicographic string comparison — exactly the
relation `taskLe`. -/
theorem claim_C8_sorted (db : DB) (pid : Nat) :
    List.Sorted taskLe (get_tasks_for_project db pid) :=
  List.sorted_insertionSort taskLe _

/-- C8 witness at the fixture database. -/
theorem claim_C8_sorted_witness :
    List.Sorted taskLe (get_tasks_for_project wdb 1) :=
  claim_C8_sorted wdb 1

/-- C9.  With distinct epic ids and distinct phase ids (the primary keys the
persistence layer assigns), every task returned by `get_tasks_for_project`
reaches project `pid` through its epic and that epic's phase, and every such
chain from the task reaches `pid` — never a different project. -/
theorem claim_C9_scoped (db : DB) (pid : Nat) (t : Task)
    (he : (db.epics.map Epic.id).Nodup) (hp : (db.phases.map Phase.id).Nodup)
    (hmem : t ∈ get_tasks_for_project db pid) :
    (∃ e ∈ db.epics, e.id = t.epic_id ∧ ∃ ph ∈ db.phases,
      ph.id = e.phase_id ∧ ph.project_id = pid) ∧
    (∀ e ∈ db.epics, e.id = t.epic_id →
      ∀ ph ∈ db.phases, ph.id = e.phase_id → ph.project_id = pid) := by
  unfold get_tasks_for_project at hmem
  have hmem' : t ∈ db.tasks.filter (taskOfProjectB db pid) :=
    (List.perm_insertionSort taskLe _).mem_iff.mp hmem
  have hpred : taskOfProjectB db pid t = true := (List.mem_filter.mp hmem').2
  simp only [taskOfProjectB, List.any_eq_true, Bool.and_eq_true,
    beq_iff_eq] at hpred
  obtain ⟨e0, he0, heid0, ph0, hph0, hphid0, hproj0⟩ := hpred
  refine ⟨⟨e0, he0, heid0, ph0, hph0, hphid0, hproj0⟩, ?_⟩
  intro e he' heid ph hph' hphid
  have heq : e = e0 :=
    List.inj_on_of_nodup_map he he' he0 (by rw [heid, heid0])
  subst heq
  have hpeq : ph = ph0 :=
    List.inj_on_of_nodup_map hp hph' hph0 (by rw [hphid, ← hphid0])
  subst hpeq
  exact hproj0

/-- C9 witness at the fixture database: task 1 is returned for project 1
and chains to it exclusively. -/
theorem claim_C9_scoped_witness :
    (wdb.epics.map Epic.id).Nodup ∧ (wdb.phases.map Phase.id).Nodup ∧
    wt1 ∈ get_tasks_for_project wdb 1 ∧
    ((∃ e ∈ wdb.epics, e.id = wt1.epic_id ∧ ∃ ph ∈ wdb.phases,
        ph.id = e.phase_id ∧ ph.project_id = 1) ∧
      (∀ e ∈ wdb.epics, e.id = wt1.epic_id →
        ∀ ph ∈ wdb.phases, ph.id = e.phase_id → ph.project_id = 1)) :=
  ⟨by decide, by decide, by decide,
   claim_C9_scoped wdb 1 wt1 (by decide) (by decide) (by decide)⟩

/-- C10 witness at the fixture database. -/
theorem claim_C10_frame_witness :
    (update_task_status wdb 1 "In Progress" 7).2.projects = wdb.projects ∧
    (update_task_status wdb 1 "In Progress" 7).2.phases = wdb.phases ∧
    (update_task_status wdb 1 "In Progress" 7).2.epics = wdb.epics ∧
    (update_task_status wdb 1 "In Progress" 7).2.subtasks = wdb.subtasks ∧
    (update_task_status wdb 1 "In Progress" 7).2.daily_logs = wdb.daily_logs ∧
    List.Forall₂ (fun t u => u.id = t.id ∧ u.name = t.name ∧
      u.tkDescription = t.tkDescription ∧ u.assigned_to = t.assigned_to ∧
      u.priority = t.priority ∧ u.jira_link = t.jira_link ∧
      u.start_date = t.start_date ∧ u.due_date = t.due_date ∧
      (t.id ≠ 1 → u = t) ∧
      ("In Progress" ≠ "Done" → u.completed_date = t.completed_date))
      wdb.tasks (update_task_status wdb 1 "In Progress" 7).2.tasks :=
  claim_C10_frame wdb 1 "In Progress" 7

end MdmPrjPlnr
